import Mathlib

/-!
Shallow embedding of the salary-monnify-pay payroll disbursement core.

The definitions below are translated from the TypeScript sources:
  src/models/payroll.ts           (PayrollModel, PayrollItemModel, PayrollStatus)
  src/jobs/payroll.processor.ts   (processBulkPayroll, updatePayrollStats)
  src/routes/monnify.webhook.ts   (verifySignature, the webhook handler, its
                                   local updatePayrollStats copy)
  src/controllers/payroll.controller.ts (reconcilePayroll, updatePayrollStats)
  src/config/monnify.ts           (MonnifyClient.initiateBulkTransfer,
                                   ensureAuthenticated)

JavaScript truthiness on optional strings is modelled explicitly: an absent
value (`undefined` / `null`) is `none`, and `some ""` is falsy exactly as the
empty string is in JavaScript.  Database rows become Lean structures, the
tables a `Store`, `NOW()` an explicit `now` argument, and every async
function a pure state transformer.
-/

/-- JS truthiness of an optional string: `undefined`/`null` and `""` are falsy. -/
def strTruthy : Option String → Bool
  | none => false
  | some s => !(s == "")

/-- JS `a || b` on an optional string with a string default. -/
def jsStrOr (a : Option String) (b : String) : String :=
  match a with
  | none => b
  | some s => if s == "" then b else s

/-- Auxiliary splitter over the character list (structural recursion). -/
def splitUnderscoreAux : List Char → List Char → List String
  | [], acc => [String.mk acc.reverse]
  | c :: cs, acc =>
      if c = '_' then String.mk acc.reverse :: splitUnderscoreAux cs []
      else splitUnderscoreAux cs (c :: acc)

/-- JS `s.split('_')`: split on every underscore; never returns `[]`. -/
def jsSplitUnderscore (s : String) : List String :=
  splitUnderscoreAux s.data []

/-- Accumulate decimal digits (the characters are assumed to be digits). -/
def natOfDigits : List Char → Nat → Nat
  | [], acc => acc
  | c :: cs, acc => natOfDigits cs (acc * 10 + (c.toNat - 48))

/-- JS `Number(x)` restricted to the shapes the webhook meets: `undefined`
maps to NaN (`none`), `''` to `0`, a digit string to its value, anything
else to NaN (`none`). -/
def jsNumberNat : Option String → Option Nat
  | none => none
  | some s =>
      if s == "" then some 0
      else if s.data.all (fun c => c.isDigit) then some (natOfDigits s.data 0)
      else none

/-- The deterministic per-item idempotency reference `PAYROLL_{payrollId}_{itemId}`. -/
def mkItemReference (payrollId itemId : Nat) : String :=
  "PAYROLL_" ++ toString payrollId ++ "_" ++ toString itemId

/-- `PayrollStatus` from src/models/payroll.ts. -/
inductive PayrollStatus where
  | pending
  | processing
  | completed
  | failed
  | partially_completed
deriving DecidableEq

/-- An item/batch status is terminal when it is COMPLETED or FAILED. -/
def PayrollStatus.isTerminal : PayrollStatus → Bool
  | .completed => true
  | .failed => true
  | _ => false

/-- A `payrolls` table row (src/models/payroll.ts, interface Payroll). -/
structure Payroll where
  id : Nat
  payroll_period : String
  total_amount : Int
  total_employees : Nat
  status : PayrollStatus
  processed_count : Nat
  failed_count : Nat
  processed_at : Option Nat
  created_at : Nat
  updated_at : Nat
deriving DecidableEq

/-- A `payroll_items` table row (src/models/payroll.ts, interface PayrollItem). -/
structure PayrollItem where
  id : Nat
  payroll_id : Nat
  employee_id : Nat
  amount : Int
  status : PayrollStatus
  transaction_reference : Option String
  error_message : Option String
  processed_at : Option Nat
  created_at : Nat
  updated_at : Nat
deriving DecidableEq

/-- The banking details the processor reads from an employee row. -/
structure Employee where
  id : Nat
  name : String
  account_number : String
  bank_code : String
deriving DecidableEq

/-- The ledger store: the `payrolls` and `payroll_items` tables. -/
structure Store where
  payrolls : List Payroll
  items : List PayrollItem
deriving DecidableEq

/-- `PayrollItemModel.findById`: first row with the given id. -/
def Store.findItem (s : Store) (id : Nat) : Option PayrollItem :=
  s.items.find? (fun i => i.id == id)

/-- `PayrollModel.findById`: first row with the given id. -/
def Store.findPayroll (s : Store) (id : Nat) : Option Payroll :=
  s.payrolls.find? (fun p => p.id == id)

/-- `PayrollItemModel.findByPayrollId`: the rows of one batch. -/
def Store.itemsOf (s : Store) (payrollId : Nat) : List PayrollItem :=
  s.items.filter (fun i => i.payroll_id == payrollId)

/-- SQL `UPDATE payroll_items ... WHERE id = $1`: rewrite the matching rows. -/
def Store.updateItem (s : Store) (id : Nat) (f : PayrollItem → PayrollItem) : Store :=
  { s with items := s.items.map (fun i => if i.id == id then f i else i) }

/-- SQL `UPDATE payrolls ... WHERE id = $1`: rewrite the matching rows. -/
def Store.updatePayroll (s : Store) (id : Nat) (f : Payroll → Payroll) : Store :=
  { s with payrolls := s.payrolls.map (fun p => if p.id == id then f p else p) }

/-- `PayrollItemModel.updateStatus` (src/models/payroll.ts lines 459-489):
always writes `status` and `updated_at`; writes `transaction_reference` and
`error_message` only when the argument is truthy (present and non-empty);
stamps `processed_at = NOW()` whenever the written status is COMPLETED or
FAILED. -/
def PayrollItemModel.updateStatus (item : PayrollItem) (status : PayrollStatus)
    (transactionReference : Option String) (errorMessage : Option String)
    (now : Nat) : PayrollItem :=
  { item with
    status := status
    updated_at := now
    transaction_reference :=
      if strTruthy transactionReference then transactionReference
      else item.transaction_reference
    error_message :=
      if strTruthy errorMessage then errorMessage else item.error_message
    processed_at :=
      if status = .completed ∨ status = .failed then some now
      else item.processed_at }

/-- `PayrollModel.updateStatus` (src/models/payroll.ts lines 351-382):
always writes `status` and `updated_at`; writes the counters only when the
argument is not `undefined`; stamps `processed_at = NOW()` whenever the
written status is COMPLETED or PARTIALLY_COMPLETED. -/
def PayrollModel.updateStatus (p : Payroll) (status : PayrollStatus)
    (processedCount failedCount : Option Nat) (now : Nat) : Payroll :=
  { p with
    status := status
    updated_at := now
    processed_count :=
      match processedCount with
      | some c => c
      | none => p.processed_count
    failed_count :=
      match failedCount with
      | some c => c
      | none => p.failed_count
    processed_at :=
      if status = .completed ∨ status = .partially_completed then some now
      else p.processed_at }

/-- `items.filter(i => i.status === COMPLETED).length`. -/
def countCompleted (items : List PayrollItem) : Nat :=
  (items.filter (fun i => i.status == PayrollStatus.completed)).length

/-- `items.filter(i => i.status === FAILED).length`. -/
def countFailed (items : List PayrollItem) : Nat :=
  (items.filter (fun i => i.status == PayrollStatus.failed)).length

/-- The aggregate-status chain of `updatePayrollStats` in
src/jobs/payroll.processor.ts (lines 85-105). -/
def statsStatusJobs (completed failed total : Nat) : PayrollStatus :=
  if completed = total then .completed
  else if failed = total then .failed
  else if 0 < completed then .partially_completed
  else .processing

/-- The aggregate-status chain of the `updatePayrollStats` copy local to
src/routes/monnify.webhook.ts (lines 576-596). -/
def statsStatusRoutes (completed failed total : Nat) : PayrollStatus :=
  if completed = total then .completed
  else if failed = total then .failed
  else if 0 < completed then .partially_completed
  else .processing

/-- The aggregate-status chain of `PayrollController.updatePayrollStats`
(src/controllers/payroll.controller.ts lines 339-362). -/
def statsStatusController (completed failed total : Nat) : PayrollStatus :=
  if completed = total then .completed
  else if failed = total then .failed
  else if 0 < completed then .partially_completed
  else .processing

/-- The aggregate function of spec section 4.3, written from the spec's own
words, for comparison with the three call-site chains above. -/
def specAggregateStatus (completed failed total : Nat) : PayrollStatus :=
  if completed = total then .completed
  else if failed = total then .failed
  else if (0 < completed ∧ completed + failed < total) ∨
          (0 < completed ∧ 0 < failed) then .partially_completed
  else .processing

/-- The batch row written by the processor's `updatePayrollStats` once the
counts over the loaded items are taken. -/
def updatePayrollStatsJobs (items : List PayrollItem) (p : Payroll) (now : Nat) : Payroll :=
  PayrollModel.updateStatus p
    (statsStatusJobs (countCompleted items) (countFailed items) items.length)
    (some (countCompleted items)) (some (countFailed items)) now

/-- The batch row written by the webhook file's `updatePayrollStats`. -/
def updatePayrollStatsRoutes (items : List PayrollItem) (p : Payroll) (now : Nat) : Payroll :=
  PayrollModel.updateStatus p
    (statsStatusRoutes (countCompleted items) (countFailed items) items.length)
    (some (countCompleted items)) (some (countFailed items)) now

/-- The batch row written by the controller's `updatePayrollStats`. -/
def updatePayrollStatsController (items : List PayrollItem) (p : Payroll) (now : Nat) : Payroll :=
  PayrollModel.updateStatus p
    (statsStatusController (countCompleted items) (countFailed items) items.length)
    (some (countCompleted items)) (some (countFailed items)) now

/-- The webhook file's `updatePayrollStats(payrollId)` as a store action:
reload the batch's items, count, derive, write. -/
def runUpdatePayrollStatsRoutes (s : Store) (payrollId : Nat) (now : Nat) : Store :=
  s.updatePayroll payrollId (fun p => updatePayrollStatsRoutes (s.itemsOf payrollId) p now)

/-- The controller's `updatePayrollStats(payrollId)` as a store action. -/
def runUpdatePayrollStatsController (s : Store) (payrollId : Nat) (now : Nat) : Store :=
  s.updatePayroll payrollId (fun p => updatePayrollStatsController (s.itemsOf payrollId) p now)

/-- The eligibility filter of `processBulkPayroll`
(src/jobs/payroll.processor.ts lines 31-35): PENDING, or PROCESSING with a
falsy (`null`/`undefined`/empty) `transaction_reference`. -/
def payablePred (i : PayrollItem) : Bool :=
  i.status == PayrollStatus.pending ||
    (i.status == PayrollStatus.processing && !(strTruthy i.transaction_reference))

/-- `items.filter(...)`: the items a batch-processing invocation submits. -/
def payableFilter (items : List PayrollItem) : List PayrollItem :=
  items.filter payablePred

/-- One entry of the transfer list `initiateBulkTransfer` receives
(src/config/monnify.ts lines 141-149 and payroll.processor.ts lines 51-58). -/
structure Transfer where
  amount : Int
  reference : String
  recipientAccountNumber : String
  recipientBankCode : String
  recipientName : String
  narration : String
deriving DecidableEq

/-- The transfer descriptor built for one payable item
(src/jobs/payroll.processor.ts lines 43-59); a missing employee row throws. -/
def toTransfer (lookupEmployee : Nat → Option Employee) (payrollId : Nat)
    (item : PayrollItem) : Except String Transfer :=
  match lookupEmployee item.employee_id with
  | none => .error "Employee not found"
  | some e =>
      .ok { amount := item.amount
            reference := mkItemReference payrollId item.id
            recipientAccountNumber := e.account_number
            recipientBankCode := e.bank_code
            recipientName := e.name
            narration := "Payroll payment" }

/-- The webhook event body `{ eventType, eventData }`
(src/routes/monnify.webhook.ts); absent fields are `none`. -/
structure WebhookEvent where
  eventType : Option String
  reference : Option String
  transactionReference : Option String
  transactionDescription : Option String
  status : Option String
deriving DecidableEq

/-- The three 200-acknowledgment bodies the webhook handler sends. -/
inductive WebhookResult where
  | ignored
  | alreadyProcessed
  | ok
deriving DecidableEq

/-- `verifySignature` (src/routes/monnify.webhook.ts lines 480-491): false on
a missing/empty header, else hex-digest comparison.  The HMAC-SHA512 digest
over the raw body is an external crypto primitive, passed in as `hmacHex`. -/
def verifySignature (signatureHeader : Option String) (hmacHex : String) : Bool :=
  if !(strTruthy signatureHeader) then false
  else hmacHex == signatureHeader.getD ""

/-- The reference-guard chain of the webhook handler (lines 499-521): truthy
`eventData.reference`, split on `_`, first part `PAYROLL`, numeric batch and
item ids; any failure means the event is ignored. -/
def webhookParsedIds (ev : WebhookEvent) : Option (Nat × Nat) :=
  if strTruthy ev.reference then
    let parts := jsSplitUnderscore (ev.reference.getD "")
    if parts.head? = some "PAYROLL" then
      match jsNumberNat parts[1]?, jsNumberNat parts[2]? with
      | some payrollId, some itemId => some (payrollId, itemId)
      | _, _ => none
    else none
  else none

/-- The success-outcome test (line 539-542). -/
def isSuccessEvent (ev : WebhookEvent) : Bool :=
  ev.eventType == some "SUCCESSFUL_DISBURSEMENT" || ev.status == some "SUCCESS"

/-- The failure-outcome test (lines 549-553). -/
def isFailureEvent (ev : WebhookEvent) : Bool :=
  ev.eventType == some "FAILED_DISBURSEMENT" ||
    ev.eventType == some "REVERSED_DISBURSEMENT" ||
    ev.status == some "FAILED"

/-- The outcome branches of the webhook handler (lines 539-563): terminalize
the item on a recognized outcome, leave the store alone otherwise. -/
def applyOutcome (s : Store) (ev : WebhookEvent) (itemId : Nat) (now : Nat) : Store :=
  if isSuccessEvent ev then
    s.updateItem itemId (fun i =>
      PayrollItemModel.updateStatus i .completed ev.transactionReference none now)
  else if isFailureEvent ev then
    s.updateItem itemId (fun i =>
      PayrollItemModel.updateStatus i .failed ev.transactionReference
        (some (jsStrOr ev.transactionDescription "")) now)
  else s

/-- The webhook handler body (src/routes/monnify.webhook.ts lines 493-572):
guard chain, item lookup, idempotency gate on the found item, outcome branch,
then the local `updatePayrollStats` on the batch id parsed from the
reference. -/
def handleWebhook (s : Store) (ev : WebhookEvent) (now : Nat) : Store × WebhookResult :=
  match webhookParsedIds ev with
  | none => (s, .ignored)
  | some (payrollId, itemId) =>
    match s.findItem itemId with
    | none => (s, .ignored)
    | some item =>
      if item.status = .completed ∨ item.status = .failed then (s, .alreadyProcessed)
      else (runUpdatePayrollStatsRoutes (applyOutcome s ev itemId now) payrollId now, .ok)

set_option linter.unusedVariables false in
/-- The route `router.post('/monnify/webhook')` as registered: it receives
the `monnify-signature` header but never invokes `verifySignature` — the
handler's behaviour does not depend on `signatureHeader`. -/
def monnifyWebhookRoute (signatureHeader : Option String) (s : Store)
    (ev : WebhookEvent) (now : Nat) : Store × WebhookResult :=
  handleWebhook s ev now

/-- The gateway transaction-status body the reconciler reads, flattened as in
`txStatus.responseBody || txStatus` (payroll.controller.ts line 273). -/
structure TxStatusResponse where
  paymentStatus : Option String
  status : Option String
  paymentDescription : Option String
  failureReason : Option String
deriving DecidableEq

/-- `responseBody.paymentStatus || responseBody.status` (line 274-275). -/
def effPaymentStatus (r : TxStatusResponse) : Option String :=
  if strTruthy r.paymentStatus then r.paymentStatus else r.status

/-- `paymentDescription || failureReason || 'Transaction failed'` (295-298). -/
def reconcileErrorMessage (r : TxStatusResponse) : String :=
  jsStrOr r.paymentDescription (jsStrOr r.failureReason "Transaction failed")

/-- `monnifyClient.getTransactionStatus` as seen by the reconciler: per
reference either a thrown error or a status body. -/
def GatewayFn : Type :=
  String → Except String TxStatusResponse

/-- One iteration of the reconciliation loop
(src/controllers/payroll.controller.ts lines 265-319), threading
`(store, updated, errors)`; `item` is the snapshot row fetched before the
sweep. -/
def reconcileStep (gw : GatewayFn) (now : Nat) (acc : Store × Nat × Nat)
    (item : PayrollItem) : Store × Nat × Nat :=
  match acc with
  | (s, updated, errors) =>
    match gw (item.transaction_reference.getD "") with
    | .error _ => (s, updated, errors + 1)
    | .ok r =>
      if effPaymentStatus r = some "PAID" ∧ item.status ≠ .completed then
        (s.updateItem item.id (fun i =>
            PayrollItemModel.updateStatus i .completed item.transaction_reference none now),
          updated + 1, errors)
      else if effPaymentStatus r = some "FAILED" ∧ item.status ≠ .failed then
        (s.updateItem item.id (fun i =>
            PayrollItemModel.updateStatus i .failed item.transaction_reference
              (some (reconcileErrorMessage r)) now),
          updated + 1, errors)
      else (s, updated, errors)

/-- The whole reconciliation loop over the snapshot list. -/
def reconcileSweep (gw : GatewayFn) (now : Nat) (s : Store)
    (items : List PayrollItem) : Store × Nat × Nat :=
  items.foldl (reconcileStep gw now) (s, 0, 0)

/-- `items.filter(item => item.transaction_reference)` over the batch's rows
(lines 250-252): the items a sweep examines. -/
def itemsWithRef (s : Store) (payrollId : Nat) : List PayrollItem :=
  (s.itemsOf payrollId).filter (fun i => strTruthy i.transaction_reference)

/-- The three response shapes of `reconcilePayroll`: 404, the early
no-references return (only `reconciled: 0`), and the full summary. -/
inductive ReconcileResponse where
  | notFound
  | noItems
  | summary (reconciled errors total : Nat)
deriving DecidableEq

/-- `PayrollController.reconcilePayroll`
(src/controllers/payroll.controller.ts lines 237-336): load the batch,
select items with truthy references, return early when none, else sweep,
recompute the aggregate once, and answer with the counts. -/
def reconcilePayroll (gw : GatewayFn) (s : Store) (payrollId : Nat)
    (now : Nat) : Store × ReconcileResponse :=
  match s.findPayroll payrollId with
  | none => (s, .notFound)
  | some _ =>
    if (itemsWithRef s payrollId).length = 0 then (s, .noItems)
    else
      (runUpdatePayrollStatsController
          (reconcileSweep gw now s (itemsWithRef s payrollId)).1 payrollId now,
        .summary (reconcileSweep gw now s (itemsWithRef s payrollId)).2.1
          (reconcileSweep gw now s (itemsWithRef s payrollId)).2.2
          (itemsWithRef s payrollId).length)

/-- The token state of `MonnifyClient`. -/
structure ClientState where
  accessToken : Option String
  tokenExpiry : Int
deriving DecidableEq

/-- The network requests `initiateBulkTransfer` can issue. -/
inductive NetCall where
  | authLogin
  | batchSubmit (transactionList : List Transfer)
deriving DecidableEq

/-- `MonnifyClient.authenticate` (src/config/monnify.ts lines 49-76): one
auth login POST; on a granted token it stores the token with a 23-hour
expiry, and on any login failure it throws
`'Failed to authenticate with Monnify'`.  The gateway's answer to the login
POST is an input of the model: `authResult` is the granted token, or the
failure (rejected credentials or transport error). -/
def authenticate (authResult : Except Unit String) (nowMs : Int) :
    Except String ClientState :=
  match authResult with
  | .error _ => .error "Failed to authenticate with Monnify"
  | .ok token =>
      .ok { accessToken := some token, tokenExpiry := nowMs + 23 * 60 * 60 * 1000 }

/-- `MonnifyClient.ensureAuthenticated` (src/config/monnify.ts lines 78-82):
re-authenticate — one `authLogin` network request, which may throw — when
there is no truthy token or it is past expiry. -/
def ensureAuthenticated (authResult : Except Unit String) (st : ClientState)
    (nowMs : Int) : Except String ClientState × List NetCall :=
  if !(strTruthy st.accessToken) || st.tokenExpiry ≤ nowMs then
    (authenticate authResult nowMs, [NetCall.authLogin])
  else (.ok st, [])

/-- The per-transfer validation of `initiateBulkTransfer`
(src/config/monnify.ts lines 163-182): first failing check wins. -/
def transferError (t : Transfer) : Option String :=
  if t.amount ≤ 0 then some ("Invalid amount for transfer: " ++ t.reference)
  else if t.recipientAccountNumber = "" then
    some ("Missing account number for transfer: " ++ t.reference)
  else if t.recipientBankCode = "" then
    some ("Missing bank code for transfer: " ++ t.reference)
  else if t.recipientName = "" then
    some ("Missing recipient name for transfer: " ++ t.reference)
  else none

/-- `MonnifyClient.initiateBulkTransfer` (src/config/monnify.ts lines
141-237): `await ensureAuthenticated()` first — an authentication failure
propagates out before anything else runs (the client's fields are left
unchanged, as `authenticate` assigns them only on success) — then the
empty-list and contract-code guards, then the per-transfer loop, and only
then the batch POST.  The result records the network calls issued and the
thrown error, if any. -/
def initiateBulkTransfer (authResult : Except Unit String) (st : ClientState)
    (contractCode : String) (nowMs : Int) (transfers : List Transfer) :
    ClientState × List NetCall × Except String Unit :=
  match (ensureAuthenticated authResult st nowMs).1 with
  | .error msg => (st, (ensureAuthenticated authResult st nowMs).2, .error msg)
  | .ok st1 =>
    if transfers.length = 0 then
      (st1, (ensureAuthenticated authResult st nowMs).2, .error "No transfers provided")
    else if contractCode = "" then
      (st1, (ensureAuthenticated authResult st nowMs).2,
        .error "Monnify contract code is not configured")
    else
      match transfers.findSome? transferError with
      | some msg =>
        (st1, (ensureAuthenticated authResult st nowMs).2, .error msg)
      | none =>
        (st1, (ensureAuthenticated authResult st nowMs).2 ++
          [NetCall.batchSubmit transfers], .ok ())

/-! ### Derived predicates over the reconciliation sweep -/

/-- Whether the sweep's gateway lookup of one snapshot item throws. -/
def itemErrored (gw : GatewayFn) (item : PayrollItem) : Bool :=
  match gw (item.transaction_reference.getD "") with
  | .error _ => true
  | .ok _ => false

/-- Whether the sweep updates one snapshot item: the lookup answers and one
of the two update conditions of lines 278-309 holds. -/
def itemUpdated (gw : GatewayFn) (item : PayrollItem) : Bool :=
  match gw (item.transaction_reference.getD "") with
  | .error _ => false
  | .ok r =>
      decide ((effPaymentStatus r = some "PAID" ∧ item.status ≠ .completed) ∨
        (effPaymentStatus r = some "FAILED" ∧ item.status ≠ .failed))

/-- Count of list entries satisfying a Boolean predicate. -/
def countB (p : PayrollItem → Bool) (l : List PayrollItem) : Nat :=
  (l.filter p).length

/-! ### Concrete fixtures used by the sanity checks, counterexamples and witnesses -/

/-- A PENDING base item used by the concrete inputs below. -/
def baseItem : PayrollItem :=
  { id := 1, payroll_id := 1, employee_id := 1, amount := 100
    status := .pending, transaction_reference := none, error_message := none
    processed_at := none, created_at := 0, updated_at := 0 }

/-- A PENDING base batch row used by the concrete inputs below. -/
def basePayroll : Payroll :=
  { id := 1, payroll_period := "2024-12", total_amount := 100
    total_employees := 1, status := .pending, processed_count := 0
    failed_count := 0, processed_at := none, created_at := 0, updated_at := 0 }

/-- A store exercising the webhook handler end to end. -/
def sanityStore : Store :=
  { payrolls := [basePayroll, { basePayroll with id := 2 }]
    items := [{ baseItem with id := 5, payroll_id := 2, status := .processing }] }

/-- A success event matching `sanityStore`. -/
def sanityEvent : WebhookEvent :=
  { eventType := some "SUCCESSFUL_DISBURSEMENT", reference := some "PAYROLL_1_5"
    transactionReference := some "MNFY1", transactionDescription := none, status := none }

/-- A PENDING item that already carries a gateway reference. -/
def c4Item : PayrollItem :=
  { baseItem with status := .pending, transaction_reference := some "TF-104" }

/-- A batch row already finalized: status COMPLETED, `processed_at` set. -/
def c5Payroll : Payroll :=
  { basePayroll with status := .completed, processed_count := 1, processed_at := some 1 }

/-- The store for the C5 counterexample: one COMPLETED batch, one COMPLETED item. -/
def c5Store : Store :=
  { payrolls := [c5Payroll], items := [{ baseItem with status := .completed }] }

/-- The C1 counterexample gateway: it reports FAILED for every reference. -/
def c1Gateway : GatewayFn :=
  fun _ => .ok { paymentStatus := some "FAILED", status := none,
                 paymentDescription := some "Insufficient funds", failureReason := none }

/-- The C1 counterexample item: COMPLETED, holding reference "TX1". -/
def c1Item : PayrollItem :=
  { baseItem with status := .completed, transaction_reference := some "TX1",
                  processed_at := some 1 }

/-- The C1 counterexample store. -/
def c1Store : Store := { payrolls := [basePayroll], items := [c1Item] }

/-- The C1 witness store: one FAILED item. -/
def w1Store : Store :=
  { payrolls := [basePayroll], items := [{ baseItem with status := .failed }] }

/-- The C2 item: PROCESSING, awaiting its terminal notification. -/
def c2Item : PayrollItem :=
  { baseItem with id := 5, payroll_id := 1, status := .processing }

/-- The C2 store. -/
def c2Store : Store := { payrolls := [basePayroll], items := [c2Item] }

/-- The C2 event: a successful disbursement for item 5 of batch 1. -/
def c2Event : WebhookEvent :=
  { eventType := some "SUCCESSFUL_DISBURSEMENT", reference := some "PAYROLL_1_5",
    transactionReference := some "MNFY-77", transactionDescription := none,
    status := none }

/-- The C6 item: owned by batch 2 while the event references batch 1. -/
def c6Item : PayrollItem :=
  { baseItem with id := 5, payroll_id := 2, status := .processing }

/-- The C6 second batch row, the one that owns `c6Item`. -/
def c6Payroll2 : Payroll := { basePayroll with id := 2 }

/-- The C6 store: two batches; the only item belongs to batch 2. -/
def c6Store : Store :=
  { payrolls := [basePayroll, c6Payroll2], items := [c6Item] }

/-- The C6 event: success notification whose reference names batch 1
although the item it targets is owned by batch 2. -/
def c6Event : WebhookEvent :=
  { eventType := some "SUCCESSFUL_DISBURSEMENT", reference := some "PAYROLL_1_5",
    transactionReference := some "MNFY1", transactionDescription := none,
    status := none }

/-- The C6/C7 witness item: owned by batch 1, matching the event reference. -/
def w6Item : PayrollItem :=
  { baseItem with id := 5, payroll_id := 1, status := .processing }

/-- The C6/C7 witness store. -/
def w6Store : Store :=
  { payrolls := [basePayroll, c6Payroll2], items := [w6Item] }

/-- The C8 counterexample store: a batch whose only item is COMPLETED but
holds no transaction reference. -/
def c8Store : Store :=
  { payrolls := [basePayroll], items := [{ baseItem with status := .completed }] }

/-- The C8 counterexample gateway: every lookup throws. -/
def c8Gateway : GatewayFn := fun _ => .error "network error"

/-- The C8 witness items: both PROCESSING with references. -/
def w8ItemA : PayrollItem :=
  { baseItem with id := 1, status := .processing, transaction_reference := some "T1" }

/-- Second C8 witness item. -/
def w8ItemB : PayrollItem :=
  { baseItem with id := 2, status := .processing, transaction_reference := some "T2" }

/-- The C8 witness store. -/
def w8Store : Store := { payrolls := [basePayroll], items := [w8ItemA, w8ItemB] }

/-- The C8 witness gateway: "T1" is PAID, every other lookup throws. -/
def w8Gateway : GatewayFn := fun r =>
  if r = "T1" then
    .ok { paymentStatus := some "PAID", status := none,
          paymentDescription := none, failureReason := none }
  else .error "timeout"

/-- The C9 client state: no cached token, so `ensureAuthenticated` must hit
the network. -/
def c9State : ClientState := { accessToken := none, tokenExpiry := 0 }

/-- The C9 transfer: a non-positive amount that fails validation. -/
def c9Transfer : Transfer :=
  { amount := 0, reference := "PAYROLL_1_1", recipientAccountNumber := "0123456789",
    recipientBankCode := "058", recipientName := "Ada Obi", narration := "Payroll payment" }

/-! ### Sanity checks -/

example : jsSplitUnderscore "PAYROLL_27_51" = ["PAYROLL", "27", "51"] := by decide
example : jsSplitUnderscore "PAYROLL" = ["PAYROLL"] := by decide
example : jsNumberNat (some "27") = some 27 := by decide
example : jsNumberNat none = none := by decide
example : jsNumberNat (some "a1") = none := by decide
example : statsStatusJobs 0 0 0 = .completed := by decide
example : specAggregateStatus 2 1 3 = .partially_completed := by decide
example : initiateBulkTransfer (.error ()) c9State "CONTRACT" 1000 [c9Transfer] =
    (c9State, [NetCall.authLogin], .error "Failed to authenticate with Monnify") := rfl
example : webhookParsedIds sanityEvent = some (1, 5) := by decide
example : ((handleWebhook sanityStore sanityEvent 3).1.findItem 5).map (fun i => i.status) =
    some .completed := by decide
example : (handleWebhook sanityStore sanityEvent 3).2 = .ok := by decide
example : ((handleWebhook sanityStore sanityEvent 3).1.findPayroll 2) =
    some { basePayroll with id := 2 } := by decide
example : ((handleWebhook sanityStore sanityEvent 3).1.findPayroll 1).map (fun p => p.status) =
    some .completed := by decide

/-! ### Helper lemmas -/

lemma strTruthy_eq_false_iff (r : Option String) :
    strTruthy r = false ↔ r = none ∨ r = some "" := by
  cases r with
  | none => simp [strTruthy]
  | some s => simp [strTruthy]

lemma find?_map_of_pred {α : Type} (g : α → α) (p : α → Bool)
    (hp : ∀ a, p (g a) = p a) (l : List α) :
    (l.map g).find? p = (l.find? p).map g := by
  induction l with
  | nil => rfl
  | cons a t ih =>
    by_cases h : p a = true
    · simp [List.find?, hp, h]
    · simp only [Bool.not_eq_true] at h
      simp [List.find?, hp, h, ih]

lemma itemUpdateStatus_id (i : PayrollItem) (st : PayrollStatus)
    (tr em : Option String) (now : Nat) :
    (PayrollItemModel.updateStatus i st tr em now).id = i.id := rfl

lemma payrollUpdateStatus_id (p : Payroll) (st : PayrollStatus)
    (pc fc : Option Nat) (now : Nat) :
    (PayrollModel.updateStatus p st pc fc now).id = p.id := rfl

lemma findItem_updateItem (s : Store) (tid : Nat) (f : PayrollItem → PayrollItem)
    (hf : ∀ i, (f i).id = i.id) (id : Nat) :
    (s.updateItem tid f).findItem id =
      if id = tid then (s.findItem id).map f else s.findItem id := by
  have hmap : (s.updateItem tid f).findItem id =
      (s.items.find? (fun i => i.id == id)).map
        (fun i => if i.id == tid then f i else i) := by
    unfold Store.findItem Store.updateItem
    exact find?_map_of_pred _ _ (fun a => by by_cases h : a.id == tid <;> simp [h, hf]) _
  rw [hmap]
  unfold Store.findItem
  cases hfind : s.items.find? (fun i => i.id == id) with
  | none => simp
  | some x =>
    have hx : x.id = id := by
      have := List.find?_some hfind
      simpa using this
    by_cases hid : id = tid
    · simp [hx, hid]
    · simp [hx, hid]

lemma findPayroll_updatePayroll (s : Store) (tid : Nat) (f : Payroll → Payroll)
    (hf : ∀ p, (f p).id = p.id) (id : Nat) :
    (s.updatePayroll tid f).findPayroll id =
      if id = tid then (s.findPayroll id).map f else s.findPayroll id := by
  have hmap : (s.updatePayroll tid f).findPayroll id =
      (s.payrolls.find? (fun p => p.id == id)).map
        (fun p => if p.id == tid then f p else p) := by
    unfold Store.findPayroll Store.updatePayroll
    exact find?_map_of_pred _ _ (fun a => by by_cases h : a.id == tid <;> simp [h, hf]) _
  rw [hmap]
  unfold Store.findPayroll
  cases hfind : s.payrolls.find? (fun p => p.id == id) with
  | none => simp
  | some x =>
    have hx : x.id = id := by
      have := List.find?_some hfind
      simpa using this
    by_cases hid : id = tid
    · simp [hx, hid]
    · simp [hx, hid]

lemma items_updatePayroll (s : Store) (id : Nat) (f : Payroll → Payroll) :
    (s.updatePayroll id f).items = s.items := rfl

lemma payrolls_updateItem (s : Store) (id : Nat) (f : PayrollItem → PayrollItem) :
    (s.updateItem id f).payrolls = s.payrolls := rfl

lemma items_runStatsRoutes (s : Store) (pid now : Nat) :
    (runUpdatePayrollStatsRoutes s pid now).items = s.items := rfl

lemma items_runStatsController (s : Store) (pid now : Nat) :
    (runUpdatePayrollStatsController s pid now).items = s.items := rfl

lemma findItem_runStatsRoutes (s : Store) (pid now id : Nat) :
    (runUpdatePayrollStatsRoutes s pid now).findItem id = s.findItem id := rfl

lemma findItem_runStatsController (s : Store) (pid now id : Nat) :
    (runUpdatePayrollStatsController s pid now).findItem id = s.findItem id := rfl

lemma payrolls_applyOutcome (s : Store) (ev : WebhookEvent) (iid now : Nat) :
    (applyOutcome s ev iid now).payrolls = s.payrolls := by
  unfold applyOutcome
  split
  · rfl
  · split <;> rfl

lemma counts_le (items : List PayrollItem) :
    countCompleted items + countFailed items ≤ items.length := by
  induction items with
  | nil => simp [countCompleted, countFailed]
  | cons i t ih =>
    unfold countCompleted countFailed at *
    rw [List.filter_cons, List.filter_cons, List.length_cons]
    cases h : i.status <;> simp [h, beq_iff_eq] <;> omega

lemma statsStatusJobs_eq_spec (c f t : Nat) (h : c + f ≤ t) :
    statsStatusJobs c f t = specAggregateStatus c f t := by
  unfold statsStatusJobs specAggregateStatus
  split_ifs <;> first | rfl | (exfalso; omega)

lemma statsStatusRoutes_eq_spec (c f t : Nat) (h : c + f ≤ t) :
    statsStatusRoutes c f t = specAggregateStatus c f t := by
  unfold statsStatusRoutes specAggregateStatus
  split_ifs <;> first | rfl | (exfalso; omega)

lemma statsStatusController_eq_spec (c f t : Nat) (h : c + f ≤ t) :
    statsStatusController c f t = specAggregateStatus c f t := by
  unfold statsStatusController specAggregateStatus
  split_ifs <;> first | rfl | (exfalso; omega)

lemma reconcileStep_error (gw : GatewayFn) (now : Nat) (s : Store) (u e : Nat)
    (x : PayrollItem) (msg : String)
    (hgw : gw (x.transaction_reference.getD "") = .error msg) :
    reconcileStep gw now (s, u, e) x = (s, u, e + 1) := by
  unfold reconcileStep
  rw [hgw]

lemma reconcileStep_paid (gw : GatewayFn) (now : Nat) (s : Store) (u e : Nat)
    (x : PayrollItem) (r : TxStatusResponse)
    (hgw : gw (x.transaction_reference.getD "") = .ok r)
    (h1 : effPaymentStatus r = some "PAID" ∧ x.status ≠ .completed) :
    reconcileStep gw now (s, u, e) x =
      (s.updateItem x.id (fun i =>
          PayrollItemModel.updateStatus i .completed x.transaction_reference none now),
        u + 1, e) := by
  unfold reconcileStep
  rw [hgw]
  simp only [if_pos h1]

lemma reconcileStep_failed (gw : GatewayFn) (now : Nat) (s : Store) (u e : Nat)
    (x : PayrollItem) (r : TxStatusResponse)
    (hgw : gw (x.transaction_reference.getD "") = .ok r)
    (h1 : ¬(effPaymentStatus r = some "PAID" ∧ x.status ≠ .completed))
    (h2 : effPaymentStatus r = some "FAILED" ∧ x.status ≠ .failed) :
    reconcileStep gw now (s, u, e) x =
      (s.updateItem x.id (fun i =>
          PayrollItemModel.updateStatus i .failed x.transaction_reference
            (some (reconcileErrorMessage r)) now),
        u + 1, e) := by
  unfold reconcileStep
  rw [hgw]
  simp only [if_neg h1, if_pos h2]

lemma reconcileStep_skip (gw : GatewayFn) (now : Nat) (s : Store) (u e : Nat)
    (x : PayrollItem) (r : TxStatusResponse)
    (hgw : gw (x.transaction_reference.getD "") = .ok r)
    (h1 : ¬(effPaymentStatus r = some "PAID" ∧ x.status ≠ .completed))
    (h2 : ¬(effPaymentStatus r = some "FAILED" ∧ x.status ≠ .failed)) :
    reconcileStep gw now (s, u, e) x = (s, u, e) := by
  unfold reconcileStep
  rw [hgw]
  simp only [if_neg h1, if_neg h2]

lemma countB_cons (p : PayrollItem → Bool) (x : PayrollItem) (t : List PayrollItem) :
    countB p (x :: t) = (if p x then 1 else 0) + countB p t := by
  unfold countB
  rw [List.filter_cons]
  split <;> simp <;> omega

lemma sweep_counts (gw : GatewayFn) (now : Nat) :
    ∀ (l : List PayrollItem) (s : Store) (u e : Nat),
      (List.foldl (reconcileStep gw now) (s, u, e) l).2.1 =
          u + countB (itemUpdated gw) l ∧
        (List.foldl (reconcileStep gw now) (s, u, e) l).2.2 =
          e + countB (itemErrored gw) l := by
  intro l
  induction l with
  | nil => intro s u e; simp [countB]
  | cons x t ih =>
    intro s u e
    rw [List.foldl_cons, countB_cons, countB_cons]
    cases hgw : gw (x.transaction_reference.getD "") with
    | error msg =>
      have hux : itemUpdated gw x = false := by unfold itemUpdated; rw [hgw]
      have hex : itemErrored gw x = true := by unfold itemErrored; rw [hgw]
      rw [reconcileStep_error gw now s u e x msg hgw]
      rcases ih s u (e + 1) with ⟨ih1, ih2⟩
      rw [ih1, ih2, hux, hex]
      constructor <;> simp <;> omega
    | ok r =>
      have hex : itemErrored gw x = false := by unfold itemErrored; rw [hgw]
      by_cases h1 : effPaymentStatus r = some "PAID" ∧ x.status ≠ .completed
      · have hux : itemUpdated gw x = true := by
          unfold itemUpdated; rw [hgw]; simp [h1]
        rw [reconcileStep_paid gw now s u e x r hgw h1]
        rcases ih (s.updateItem x.id (fun i =>
            PayrollItemModel.updateStatus i .completed x.transaction_reference none now))
          (u + 1) e with ⟨ih1, ih2⟩
        rw [ih1, ih2, hux, hex]
        constructor <;> simp <;> omega
      · by_cases h2 : effPaymentStatus r = some "FAILED" ∧ x.status ≠ .failed
        · have hux : itemUpdated gw x = true := by
            unfold itemUpdated; rw [hgw]; simp [h2]
          rw [reconcileStep_failed gw now s u e x r hgw h1 h2]
          rcases ih (s.updateItem x.id (fun i =>
              PayrollItemModel.updateStatus i .failed x.transaction_reference
                (some (reconcileErrorMessage r)) now))
            (u + 1) e with ⟨ih1, ih2⟩
          rw [ih1, ih2, hux, hex]
          constructor <;> simp <;> omega
        · have hux : itemUpdated gw x = false := by
            unfold itemUpdated; rw [hgw]; simp [h1, h2]
          rw [reconcileStep_skip gw now s u e x r hgw h1 h2]
          rcases ih s u e with ⟨ih1, ih2⟩
          rw [ih1, ih2, hux, hex]
          constructor <;> simp

lemma step_preserves_terminal (gw : GatewayFn) (now : Nat) (id : Nat)
    (s : Store) (u e : Nat) (x : PayrollItem)
    (h : ∃ j, s.findItem id = some j ∧ j.status.isTerminal = true) :
    ∃ j, (reconcileStep gw now (s, u, e) x).1.findItem id = some j ∧
      j.status.isTerminal = true := by
  rcases h with ⟨j, hj, hjt⟩
  cases hgw : gw (x.transaction_reference.getD "") with
  | error msg =>
    rw [reconcileStep_error gw now s u e x msg hgw]
    exact ⟨j, hj, hjt⟩
  | ok r =>
    by_cases h1 : effPaymentStatus r = some "PAID" ∧ x.status ≠ .completed
    · rw [reconcileStep_paid gw now s u e x r hgw h1]
      rw [findItem_updateItem _ _ _
        (fun i => itemUpdateStatus_id i _ _ _ _)]
      by_cases hid : id = x.id
      · rw [if_pos hid, hj]
        exact ⟨_, rfl, rfl⟩
      · rw [if_neg hid]
        exact ⟨j, hj, hjt⟩
    · by_cases h2 : effPaymentStatus r = some "FAILED" ∧ x.status ≠ .failed
      · rw [reconcileStep_failed gw now s u e x r hgw h1 h2]
        rw [findItem_updateItem _ _ _
          (fun i => itemUpdateStatus_id i _ _ _ _)]
        by_cases hid : id = x.id
        · rw [if_pos hid, hj]
          exact ⟨_, rfl, rfl⟩
        · rw [if_neg hid]
          exact ⟨j, hj, hjt⟩
      · rw [reconcileStep_skip gw now s u e x r hgw h1 h2]
        exact ⟨j, hj, hjt⟩

lemma sweep_preserves_terminal (gw : GatewayFn) (now : Nat) (id : Nat) :
    ∀ (l : List PayrollItem) (acc : Store × Nat × Nat),
      (∃ j, acc.1.findItem id = some j ∧ j.status.isTerminal = true) →
      ∃ j, (List.foldl (reconcileStep gw now) acc l).1.findItem id = some j ∧
        j.status.isTerminal = true := by
  intro l
  induction l with
  | nil => intro acc h; exact h
  | cons x t ih =>
    intro acc h
    rw [List.foldl_cons]
    rcases acc with ⟨s, u, e⟩
    exact ih _ (step_preserves_terminal gw now id s u e x h)

lemma findSome?_eq_some_exists {α β : Type} (f : α → Option β) :
    ∀ (l : List α) (m : β), l.findSome? f = some m → ∃ x, x ∈ l ∧ f x = some m := by
  intro l
  induction l with
  | nil => intro m h; cases h
  | cons a t ih =>
    intro m h
    rw [List.findSome?_cons] at h
    cases hfa : f a with
    | some b =>
      rw [hfa] at h
      have hbm : some b = some m := h
      exact ⟨a, List.mem_cons_self a t, by rw [hfa, hbm]⟩
    | none =>
      rw [hfa] at h
      have ht : t.findSome? f = some m := h
      rcases ih m ht with ⟨x, hx, hfx⟩
      exact ⟨x, List.mem_cons_of_mem a hx, hfx⟩

lemma findSome?_ne_none_of_mem {α β : Type} (f : α → Option β) :
    ∀ (l : List α) (x : α), x ∈ l → f x ≠ none → l.findSome? f ≠ none := by
  intro l
  induction l with
  | nil => intro x hx; cases hx
  | cons a t ih =>
    intro x hx hfx
    rw [List.findSome?_cons]
    cases hfa : f a with
    | some b => simp
    | none =>
      rcases List.mem_cons.mp hx with rfl | hmem
      · exact absurd hfa hfx
      · exact ih x hmem hfx

lemma transferError_mentions_reference (t : Transfer) (m : String)
    (h : transferError t = some m) : ∃ pre, m = pre ++ t.reference := by
  unfold transferError at h
  split_ifs at h
  · injection h with h'
    exact ⟨"Invalid amount for transfer: ", h'.symm⟩
  · injection h with h'
    exact ⟨"Missing account number for transfer: ", h'.symm⟩
  · injection h with h'
    exact ⟨"Missing bank code for transfer: ", h'.symm⟩
  · injection h with h'
    exact ⟨"Missing recipient name for transfer: ", h'.symm⟩

lemma ensureAuthenticated_no_submit (authResult : Except Unit String)
    (st : ClientState) (nowMs : Int) :
    ∀ l, NetCall.batchSubmit l ∉ (ensureAuthenticated authResult st nowMs).2 := by
  intro l
  unfold ensureAuthenticated
  split <;> simp

lemma initiateBulkTransfer_authFail (authResult : Except Unit String)
    (st : ClientState) (contractCode : String) (nowMs : Int)
    (transfers : List Transfer) (msg : String)
    (h : (ensureAuthenticated authResult st nowMs).1 = .error msg) :
    initiateBulkTransfer authResult st contractCode nowMs transfers =
      (st, (ensureAuthenticated authResult st nowMs).2, .error msg) := by
  unfold initiateBulkTransfer
  rw [h]

lemma initiateBulkTransfer_authOk (authResult : Except Unit String)
    (st st1 : ClientState) (contractCode : String) (nowMs : Int)
    (transfers : List Transfer)
    (h : (ensureAuthenticated authResult st nowMs).1 = .ok st1) :
    initiateBulkTransfer authResult st contractCode nowMs transfers =
      (if transfers.length = 0 then
        (st1, (ensureAuthenticated authResult st nowMs).2, .error "No transfers provided")
      else if contractCode = "" then
        (st1, (ensureAuthenticated authResult st nowMs).2,
          .error "Monnify contract code is not configured")
      else
        match transfers.findSome? transferError with
        | some msg =>
          (st1, (ensureAuthenticated authResult st nowMs).2, .error msg)
        | none =>
          (st1, (ensureAuthenticated authResult st nowMs).2 ++
            [NetCall.batchSubmit transfers], .ok ())) := by
  unfold initiateBulkTransfer
  rw [h]

lemma findItem_applyOutcome_ne (s : Store) (ev : WebhookEvent) (iid now id : Nat)
    (h : id ≠ iid) :
    (applyOutcome s ev iid now).findItem id = s.findItem id := by
  unfold applyOutcome
  split
  · rw [findItem_updateItem _ _ _
      (fun i => itemUpdateStatus_id i _ _ _ _), if_neg h]
  · split
    · rw [findItem_updateItem _ _ _
        (fun i => itemUpdateStatus_id i _ _ _ _), if_neg h]
    · rfl

lemma isTerminal_iff (st : PayrollStatus) :
    st.isTerminal = true ↔ st = .completed ∨ st = .failed := by
  cases st <;> simp [PayrollStatus.isTerminal]

lemma updatePayrollStatsRoutes_id (items : List PayrollItem) (p : Payroll) (now : Nat) :
    (updatePayrollStatsRoutes items p now).id = p.id := rfl

lemma updatePayrollStatsController_id (items : List PayrollItem) (p : Payroll) (now : Nat) :
    (updatePayrollStatsController items p now).id = p.id := rfl

lemma mem_payrolls_updatePayroll_ne (s : Store) (id : Nat) (f : Payroll → Payroll)
    (q : Payroll) (hq : q ∈ s.payrolls) (hne : q.id ≠ id) :
    q ∈ (s.updatePayroll id f).payrolls := by
  unfold Store.updatePayroll
  have hfix : (fun p => if p.id == id then f p else p) q = q := by simp [hne]
  exact hfix ▸ List.mem_map_of_mem _ hq

lemma mem_payrolls_runStatsRoutes_ne (s : Store) (pid now : Nat) (q : Payroll)
    (hq : q ∈ s.payrolls) (hne : q.id ≠ pid) :
    q ∈ (runUpdatePayrollStatsRoutes s pid now).payrolls :=
  mem_payrolls_updatePayroll_ne s pid _ q hq hne

lemma payablePred_iff (i : PayrollItem) :
    payablePred i = true ↔
      i.status = .pending ∨
        (i.status = .processing ∧
          (i.transaction_reference = none ∨ i.transaction_reference = some "")) := by
  unfold payablePred
  rw [Bool.or_eq_true, Bool.and_eq_true, beq_iff_eq, beq_iff_eq,
    Bool.not_eq_true', strTruthy_eq_false_iff]

lemma handleWebhook_parsed (s : Store) (ev : WebhookEvent) (now : Nat)
    (pid iid : Nat) (hparse : webhookParsedIds ev = some (pid, iid)) :
    handleWebhook s ev now =
      match s.findItem iid with
      | none => (s, .ignored)
      | some item =>
        if item.status = .completed ∨ item.status = .failed then (s, .alreadyProcessed)
        else (runUpdatePayrollStatsRoutes (applyOutcome s ev iid now) pid now, .ok) := by
  unfold handleWebhook
  rw [hparse]

lemma handleWebhook_not_terminal (s : Store) (ev : WebhookEvent) (now : Nat)
    (pid iid : Nat) (item : PayrollItem)
    (hparse : webhookParsedIds ev = some (pid, iid))
    (hfind : s.findItem iid = some item)
    (hnt : ¬(item.status = .completed ∨ item.status = .failed)) :
    handleWebhook s ev now =
      (runUpdatePayrollStatsRoutes (applyOutcome s ev iid now) pid now, .ok) := by
  rw [handleWebhook_parsed s ev now pid iid hparse, hfind]
  exact if_neg hnt

lemma handleWebhook_terminal (s : Store) (ev : WebhookEvent) (now : Nat)
    (pid iid : Nat) (item : PayrollItem)
    (hparse : webhookParsedIds ev = some (pid, iid))
    (hfind : s.findItem iid = some item)
    (ht : item.status = .completed ∨ item.status = .failed) :
    handleWebhook s ev now = (s, .alreadyProcessed) := by
  rw [handleWebhook_parsed s ev now pid iid hparse, hfind]
  exact if_pos ht

lemma reconcilePayroll_found (gw : GatewayFn) (s : Store) (pid now : Nat)
    (p : Payroll) (hp : s.findPayroll pid = some p) :
    reconcilePayroll gw s pid now =
      (if (itemsWithRef s pid).length = 0 then (s, .noItems)
        else (runUpdatePayrollStatsController
            (reconcileSweep gw now s (itemsWithRef s pid)).1 pid now,
          .summary (reconcileSweep gw now s (itemsWithRef s pid)).2.1
            (reconcileSweep gw now s (itemsWithRef s pid)).2.2
            (itemsWithRef s pid).length)) := by
  unfold reconcilePayroll
  rw [hp]

/-! ### Claim theorems -/

/-- C3: for every list of current items (whose COMPLETED and FAILED counts
always satisfy completed + failed ≤ total), the batch status written by each
of the three aggregate-recompute call sites — the processor's, the webhook
file's and the controller's `updatePayrollStats` — equals the single spec
4.3 function `specAggregateStatus`, and the stored counters equal the counts
of COMPLETED and FAILED items. -/
theorem C3_aggregate_matches_spec (items : List PayrollItem) (p : Payroll) (now : Nat) :
    (updatePayrollStatsJobs items p now).status =
        specAggregateStatus (countCompleted items) (countFailed items) items.length
    ∧ (updatePayrollStatsRoutes items p now).status =
        specAggregateStatus (countCompleted items) (countFailed items) items.length
    ∧ (updatePayrollStatsController items p now).status =
        specAggregateStatus (countCompleted items) (countFailed items) items.length
    ∧ (updatePayrollStatsJobs items p now).processed_count = countCompleted items
    ∧ (updatePayrollStatsJobs items p now).failed_count = countFailed items
    ∧ (updatePayrollStatsRoutes items p now).processed_count = countCompleted items
    ∧ (updatePayrollStatsRoutes items p now).failed_count = countFailed items
    ∧ (updatePayrollStatsController items p now).processed_count = countCompleted items
    ∧ (updatePayrollStatsController items p now).failed_count = countFailed items := by
  have hle := counts_le items
  refine ⟨?_, ?_, ?_, rfl, rfl, rfl, rfl, rfl, rfl⟩
  · exact statsStatusJobs_eq_spec _ _ _ hle
  · exact statsStatusRoutes_eq_spec _ _ _ hle
  · exact statsStatusController_eq_spec _ _ _ hle

/-- C10: `PayrollItemModel.updateStatus` writes `transaction_reference` and
`error_message` only for a supplied non-empty argument; an omitted or empty
argument leaves the stored value unchanged, a previously set reference is
never cleared, and a FAILED transition with an omitted or empty description
leaves a null `error_message` null. -/
theorem C10_update_frame (item : PayrollItem) (status : PayrollStatus)
    (tr em : Option String) (now : Nat) :
    ((tr = none ∨ tr = some "") →
        (PayrollItemModel.updateStatus item status tr em now).transaction_reference =
          item.transaction_reference)
    ∧ (∀ v, tr = some v → v ≠ "" →
        (PayrollItemModel.updateStatus item status tr em now).transaction_reference = tr)
    ∧ ((em = none ∨ em = some "") →
        (PayrollItemModel.updateStatus item status tr em now).error_message =
          item.error_message)
    ∧ (∀ v, em = some v → v ≠ "" →
        (PayrollItemModel.updateStatus item status tr em now).error_message = em)
    ∧ (item.transaction_reference ≠ none →
        (PayrollItemModel.updateStatus item status tr em now).transaction_reference ≠ none)
    ∧ (item.error_message = none → (em = none ∨ em = some "") →
        (PayrollItemModel.updateStatus item .failed tr em now).error_message = none) := by
  have htr_false : (tr = none ∨ tr = some "") → strTruthy tr = false := by
    intro h; exact (strTruthy_eq_false_iff tr).mpr h
  have hem_false : (em = none ∨ em = some "") → strTruthy em = false := by
    intro h; exact (strTruthy_eq_false_iff em).mpr h
  refine ⟨?_, ?_, ?_, ?_, ?_, ?_⟩
  · intro h
    unfold PayrollItemModel.updateStatus
    simp [htr_false h]
  · intro v hv hne
    unfold PayrollItemModel.updateStatus
    have : strTruthy tr = true := by
      subst hv; simp [strTruthy, hne]
    simp [this]
  · intro h
    unfold PayrollItemModel.updateStatus
    simp [hem_false h]
  · intro v hv hne
    unfold PayrollItemModel.updateStatus
    have : strTruthy em = true := by
      subst hv; simp [strTruthy, hne]
    simp [this]
  · intro h
    unfold PayrollItemModel.updateStatus
    by_cases ht : strTruthy tr = true
    · simp only [ht, if_true]
      cases tr with
      | none => simp [strTruthy] at ht
      | some v => simp
    · simp only [Bool.not_eq_true] at ht
      simp [ht, h]
  · intro h he
    unfold PayrollItemModel.updateStatus
    simp [hem_false he, h]

/-- C4 counterexample: the claim says an item holding a non-null gateway
reference is never included in a submission, but `processBulkPayroll`'s
filter admits every PENDING item regardless of its reference: this concrete
PENDING item with reference "TF-104" is submitted. -/
theorem C4_counterexample :
    c4Item.transaction_reference = some "TF-104"
    ∧ c4Item.transaction_reference ≠ none
    ∧ c4Item ∈ payableFilter [c4Item] := by
  refine ⟨rfl, by decide, by decide⟩

/-- C4 amended: a batch-processing invocation submits exactly the items that
are PENDING (with any reference), or PROCESSING with a null or empty
gateway reference; a PROCESSING item holding a non-empty reference is never
submitted. -/
theorem C4_amended (items : List PayrollItem) (i : PayrollItem) :
    i ∈ payableFilter items ↔
      i ∈ items ∧
        (i.status = .pending ∨
          (i.status = .processing ∧
            (i.transaction_reference = none ∨ i.transaction_reference = some ""))) := by
  unfold payableFilter
  rw [List.mem_filter, payablePred_iff]

/-- C5 counterexample: the claim says `processedAt` is written exactly once
and never overwritten, but a redundant aggregate recompute at time 2 on a
batch whose `processed_at` is 1 rewrites it to 2: `PayrollModel.updateStatus`
stamps `processed_at = NOW()` on every COMPLETED/PARTIALLY_COMPLETED write. -/
theorem C5_counterexample :
    (c5Store.findPayroll 1).map (fun p => p.processed_at) = some (some 1)
    ∧ ((runUpdatePayrollStatsRoutes c5Store 1 2).findPayroll 1).map
        (fun p => p.processed_at) = some (some 2) := by
  exact ⟨rfl, rfl⟩

/-- C5 amended: every aggregate recompute that writes COMPLETED or
PARTIALLY_COMPLETED stamps `processed_at` with the current time — the first
such transition sets it and every later one overwrites it; recomputes that
write other statuses leave it unchanged. -/
theorem C5_amended (s : Store) (pid now : Nat) (p : Payroll)
    (hp : s.findPayroll pid = some p) :
    ∃ q, (runUpdatePayrollStatsRoutes s pid now).findPayroll pid = some q
      ∧ q.processed_at =
          (if q.status = .completed ∨ q.status = .partially_completed
            then some now else p.processed_at) := by
  unfold runUpdatePayrollStatsRoutes
  rw [findPayroll_updatePayroll _ _ _ (fun p => updatePayrollStatsRoutes_id _ p _),
    if_pos rfl, hp]
  refine ⟨_, rfl, rfl⟩

/-- C5 witness at the concrete overwritten batch. -/
theorem C5_witness :
    ∃ q, (runUpdatePayrollStatsRoutes c5Store 1 2).findPayroll 1 = some q
      ∧ q.processed_at =
          (if q.status = .completed ∨ q.status = .partially_completed
            then some 2 else c5Payroll.processed_at) :=
  C5_amended c5Store 1 2 c5Payroll rfl


/-- C1 counterexample: the claim says a terminal item is never switched
between COMPLETED and FAILED whatever the gateway later reports, but the
reconciliation sweep's gate only checks the item is not already in the
target status: when the gateway reports FAILED for this COMPLETED item,
`reconcilePayroll` rewrites it to FAILED. -/
theorem C1_counterexample :
    (c1Store.findItem 1).map (fun i => i.status) = some .completed
    ∧ ((reconcilePayroll c1Gateway c1Store 1 2).1.findItem 1).map
        (fun i => i.status) = some .failed := by
  constructor
  · rfl
  · rfl

/-- C1 amended: a webhook delivery never mutates a terminal item (the
idempotency gate fires before any write), and a reconciliation sweep keeps a
terminal item terminal — it never downgrades it to PENDING or PROCESSING —
but, as `C1_counterexample` shows, it may switch a terminal item between
COMPLETED and FAILED when the gateway reports the opposite outcome. -/
theorem C1_terminal_amended (s : Store) (id : Nat) (i : PayrollItem)
    (hfind : s.findItem id = some i) (hterm : i.status.isTerminal = true) :
    (∀ ev now, (handleWebhook s ev now).1.findItem id = some i)
    ∧ (∀ gw pid now, ∃ j,
        (reconcilePayroll gw s pid now).1.findItem id = some j
          ∧ j.status.isTerminal = true) := by
  constructor
  · intro ev now
    unfold handleWebhook
    split
    · exact hfind
    · rename_i pids payrollId itemId _
      split
      · exact hfind
      · rename_i item hfi
        split
        · exact hfind
        · rename_i hi
          by_cases hid : id = itemId
          · exfalso
            subst hid
            rw [hfind] at hfi
            injection hfi with hii
            exact hi (hii ▸ (isTerminal_iff i.status).mp hterm)
          · show (runUpdatePayrollStatsRoutes (applyOutcome s ev itemId now) payrollId now).findItem id = some i
            rw [findItem_runStatsRoutes, findItem_applyOutcome_ne _ _ _ _ _ hid]
            exact hfind
  · intro gw pid now
    unfold reconcilePayroll
    split
    · exact ⟨i, hfind, hterm⟩
    · split
      · exact ⟨i, hfind, hterm⟩
      · have hsw := sweep_preserves_terminal gw now id (itemsWithRef s pid)
          (s, 0, 0) ⟨i, hfind, hterm⟩
        rcases hsw with ⟨j, hj, hjt⟩
        exact ⟨j, by rw [findItem_runStatsController]; exact hj, hjt⟩

/-- C1 witness: the amended theorem applied to a concrete FAILED item. -/
theorem C1_witness :
    (∀ ev now, (handleWebhook w1Store ev now).1.findItem 1 =
        some { baseItem with status := .failed })
    ∧ (∀ gw pid now, ∃ j,
        (reconcilePayroll gw w1Store pid now).1.findItem 1 = some j
          ∧ j.status.isTerminal = true) :=
  C1_terminal_amended w1Store 1 { baseItem with status := .failed } rfl rfl

/-- C2: `verifySignature` rejects a missing header, yet the webhook route
never calls it: the handler's outcome is identical under any signature
header, and an event delivered with no header at all still finalizes the
item and is answered OK — the claimed reject-without-mutation behaviour is
absent from the code. -/
theorem C2_signature_never_checked :
    verifySignature none "2f0adeadbeef" = false
    ∧ (∀ sig, monnifyWebhookRoute sig c2Store c2Event 9 =
        monnifyWebhookRoute none c2Store c2Event 9)
    ∧ ((monnifyWebhookRoute none c2Store c2Event 9).1.findItem 5).map
        (fun i => i.status) = some .completed
    ∧ (monnifyWebhookRoute none c2Store c2Event 9).2 = .ok := by
  exact ⟨rfl, fun sig => rfl, rfl, rfl⟩

/-- C6 counterexample: the claim says the recompute runs on the batch that
owns the mutated item; here the event reference names batch 1 while item 5
is owned by batch 2 — the item is finalized, batch 2's row is left
untouched (a recompute on batch 2 would have changed it), and batch 1 was
recomputed instead. -/
theorem C6_counterexample :
    ((handleWebhook c6Store c6Event 3).1.findItem 5).map (fun i => i.status) =
        some .completed
    ∧ (handleWebhook c6Store c6Event 3).1.findPayroll 2 = some c6Payroll2
    ∧ runUpdatePayrollStatsRoutes (handleWebhook c6Store c6Event 3).1 2 3 ≠
        (handleWebhook c6Store c6Event 3).1
    ∧ ((handleWebhook c6Store c6Event 3).1.findPayroll 1).map (fun p => p.status) =
        some .completed := by
  refine ⟨rfl, rfl, by decide, rfl⟩

/-- C6 amended: after a mutating delivery the aggregate recompute runs on
the batch id parsed from the correlation reference — the handler's result is
exactly the reference-named batch's recompute over the post-mutation store —
and every batch row whose id differs from the parsed id is left unchanged,
the item's owning batch included. -/
theorem C6_recompute_targets_reference_batch (s : Store) (ev : WebhookEvent)
    (now : Nat) (pid iid : Nat) (item : PayrollItem)
    (hparse : webhookParsedIds ev = some (pid, iid))
    (hfind : s.findItem iid = some item)
    (hnt : ¬(item.status = .completed ∨ item.status = .failed)) :
    handleWebhook s ev now =
      (runUpdatePayrollStatsRoutes (applyOutcome s ev iid now) pid now, .ok)
    ∧ ∀ q, q ∈ s.payrolls → q.id ≠ pid →
        q ∈ (handleWebhook s ev now).1.payrolls := by
  have h1 := handleWebhook_not_terminal s ev now pid iid item hparse hfind hnt
  refine ⟨h1, ?_⟩
  intro q hq hqp
  rw [h1]
  exact mem_payrolls_runStatsRoutes_ne _ pid now q
    ((payrolls_applyOutcome s ev iid now).symm ▸ hq) hqp

/-- C6 witness: the amended theorem at the concrete store and event. -/
theorem C6_witness :
    handleWebhook w6Store c6Event 4 =
      (runUpdatePayrollStatsRoutes (applyOutcome w6Store c6Event 5 4) 1 4, .ok)
    ∧ ∀ q, q ∈ w6Store.payrolls → q.id ≠ 1 →
        q ∈ (handleWebhook w6Store c6Event 4).1.payrolls :=
  C6_recompute_targets_reference_batch w6Store c6Event 4 1 5 w6Item rfl rfl (by decide)

/-- C7: delivering a terminal notification to a not-yet-terminal item
finalizes it and is acknowledged OK; delivering the same notification again
finds the item COMPLETED or FAILED, performs no mutation at all (the store,
`processed_at` included, is returned unchanged) and is acknowledged as
already processed. -/
theorem C7_duplicate_delivery_noop (s : Store) (ev : WebhookEvent)
    (now now' : Nat) (pid iid : Nat) (item : PayrollItem)
    (hparse : webhookParsedIds ev = some (pid, iid))
    (hfind : s.findItem iid = some item)
    (hnt : ¬(item.status = .completed ∨ item.status = .failed))
    (hterm : isSuccessEvent ev = true ∨ isFailureEvent ev = true) :
    (handleWebhook s ev now).2 = .ok
    ∧ (∃ j, (handleWebhook s ev now).1.findItem iid = some j
        ∧ j.status.isTerminal = true)
    ∧ handleWebhook (handleWebhook s ev now).1 ev now' =
        ((handleWebhook s ev now).1, .alreadyProcessed) := by
  have h1 := handleWebhook_not_terminal s ev now pid iid item hparse hfind hnt
  have hfi1 : ∃ j, (handleWebhook s ev now).1.findItem iid = some j
      ∧ j.status.isTerminal = true := by
    rw [h1]
    show ∃ j, (runUpdatePayrollStatsRoutes (applyOutcome s ev iid now) pid now).findItem iid = some j
        ∧ j.status.isTerminal = true
    rw [findItem_runStatsRoutes]
    by_cases hs : isSuccessEvent ev = true
    · unfold applyOutcome
      rw [if_pos hs]
      rw [findItem_updateItem _ _ _
        (fun i => itemUpdateStatus_id i _ _ _ _), if_pos rfl, hfind]
      exact ⟨_, rfl, rfl⟩
    · have hf : isFailureEvent ev = true := by
        rcases hterm with h | h
        · exact absurd h hs
        · exact h
      unfold applyOutcome
      rw [if_neg hs, if_pos hf]
      rw [findItem_updateItem _ _ _
        (fun i => itemUpdateStatus_id i _ _ _ _), if_pos rfl, hfind]
      exact ⟨_, rfl, rfl⟩
  refine ⟨by rw [h1], hfi1, ?_⟩
  rcases hfi1 with ⟨j, hj, hjt⟩
  exact handleWebhook_terminal _ ev now' pid iid j hparse hj
    ((isTerminal_iff j.status).mp hjt)

/-- C7 witness: the theorem at the concrete store and success event. -/
theorem C7_witness :
    (handleWebhook w6Store c6Event 4).2 = .ok
    ∧ (∃ j, (handleWebhook w6Store c6Event 4).1.findItem 5 = some j
        ∧ j.status.isTerminal = true)
    ∧ handleWebhook (handleWebhook w6Store c6Event 4).1 c6Event 9 =
        ((handleWebhook w6Store c6Event 4).1, .alreadyProcessed) :=
  C7_duplicate_delivery_noop w6Store c6Event 4 9 1 5 w6Item rfl rfl (by decide)
    (Or.inl rfl)

/-- C8 counterexample: the claim quantifies over every reconciliation sweep,
but on a batch where no item holds a transaction reference the endpoint
returns early with only `reconciled: 0` — no errors/total fields — and runs
no aggregate recompute, although a recompute would have changed the stale
batch row (its only item is COMPLETED while the stored counters say 0). -/
theorem C8_counterexample :
    reconcilePayroll c8Gateway c8Store 1 5 = (c8Store, .noItems)
    ∧ runUpdatePayrollStatsController c8Store 1 5 ≠ c8Store := by
  refine ⟨rfl, by decide⟩

/-- C8 amended: on every sweep over a batch with at least one item holding a
truthy transaction reference, per-item lookup failures are counted without
aborting the sweep (every examined item contributes to exactly the
updated/errored counts over the whole snapshot), the aggregate recompute
runs once after the sweep, and the summary reports reconciled = number of
items updated, errors = number of per-item failures, total = number of
items examined. -/
theorem C8_reconcile_summary (gw : GatewayFn) (s : Store) (pid now : Nat)
    (p : Payroll)
    (hp : s.findPayroll pid = some p) (hne : itemsWithRef s pid ≠ []) :
    reconcilePayroll gw s pid now =
      (runUpdatePayrollStatsController
          (reconcileSweep gw now s (itemsWithRef s pid)).1 pid now,
        .summary (countB (itemUpdated gw) (itemsWithRef s pid))
          (countB (itemErrored gw) (itemsWithRef s pid))
          (itemsWithRef s pid).length) := by
  have hlen : ¬((itemsWithRef s pid).length = 0) := by
    simpa [List.length_eq_zero] using hne
  rcases sweep_counts gw now (itemsWithRef s pid) s 0 0 with ⟨h1, h2⟩
  rw [reconcilePayroll_found gw s pid now p hp, if_neg hlen]
  unfold reconcileSweep
  rw [h1, h2, Nat.zero_add, Nat.zero_add]

/-- C8 witness: a two-item sweep where one lookup succeeds as PAID and the
other throws. -/
theorem C8_witness :
    reconcilePayroll w8Gateway w8Store 1 9 =
      (runUpdatePayrollStatsController
          (reconcileSweep w8Gateway 9 w8Store (itemsWithRef w8Store 1)).1 1 9,
        .summary (countB (itemUpdated w8Gateway) (itemsWithRef w8Store 1))
          (countB (itemErrored w8Gateway) (itemsWithRef w8Store 1))
          (itemsWithRef w8Store 1).length) :=
  C8_reconcile_summary w8Gateway w8Store 1 9 basePayroll rfl (by decide)

/-- C9 counterexample: the claim says validation fails before any network
call, but `initiateBulkTransfer` awaits `ensureAuthenticated()` first: with
no cached token and a granted login, the auth request is issued before the
invalid amount is rejected — the call trace is `[authLogin]`, not empty. -/
theorem C9_counterexample :
    (initiateBulkTransfer (.ok "tok") c9State "CONTRACT" 1000 [c9Transfer]).2.1 =
        [NetCall.authLogin]
    ∧ (initiateBulkTransfer (.ok "tok") c9State "CONTRACT" 1000 [c9Transfer]).2.2 =
        .error "Invalid amount for transfer: PAYROLL_1_1"
    ∧ [NetCall.authLogin] ≠ ([] : List NetCall) := by
  refine ⟨rfl, rfl, by decide⟩

/-- C9 amended: for every transfer list containing a transfer with a
non-positive amount, empty destination account or empty bank code, the bulk
submission throws and the batch-submission request is never issued, on every
path — but only the token-refresh authentication call may precede the
failure, and the failure it reports is the validation error naming the first
offending transfer's reference exactly when the token refresh succeeded (or
none was needed) and the contract code is configured; an authentication
failure instead aborts before validation with its own message. -/
theorem C9_validation_blocks_submission (authResult : Except Unit String)
    (st : ClientState) (contractCode : String)
    (nowMs : Int) (transfers : List Transfer) (t : Transfer)
    (ht : t ∈ transfers)
    (hbad : t.amount ≤ 0 ∨ t.recipientAccountNumber = "" ∨ t.recipientBankCode = "") :
    (∃ msg, (initiateBulkTransfer authResult st contractCode nowMs transfers).2.2 =
        .error msg)
    ∧ (∀ l, NetCall.batchSubmit l ∉
        (initiateBulkTransfer authResult st contractCode nowMs transfers).2.1)
    ∧ (∀ st1, (ensureAuthenticated authResult st nowMs).1 = .ok st1 →
        contractCode ≠ "" →
        ∃ t' pre, t' ∈ transfers ∧
          (initiateBulkTransfer authResult st contractCode nowMs transfers).2.2 =
            .error (pre ++ t'.reference)) := by
  have hlen : ¬(transfers.length = 0) := by
    cases transfers with
    | nil => cases ht
    | cons a l => simp
  have htne : transferError t ≠ none := by
    unfold transferError
    split_ifs with h1 h2 h3 h4
    · simp
    · simp
    · simp
    · simp
    · exfalso
      rcases hbad with hb | hb | hb
      · exact h1 hb
      · exact h2 hb
      · exact h3 hb
  have hfs : transfers.findSome? transferError ≠ none :=
    findSome?_ne_none_of_mem transferError transfers t ht htne
  cases hfsome : transfers.findSome? transferError with
  | none => exact absurd hfsome hfs
  | some msg =>
    cases hauth : (ensureAuthenticated authResult st nowMs).1 with
    | error authMsg =>
      rw [initiateBulkTransfer_authFail authResult st contractCode nowMs
        transfers authMsg hauth]
      refine ⟨⟨authMsg, rfl⟩, ?_, ?_⟩
      · intro l
        exact ensureAuthenticated_no_submit authResult st nowMs l
      · intro st1 hok
        cases hok
    | ok st1 =>
      rw [initiateBulkTransfer_authOk authResult st st1 contractCode nowMs
        transfers hauth]
      by_cases hcc : contractCode = ""
      · rw [if_neg hlen, if_pos hcc]
        refine ⟨⟨_, rfl⟩, ?_, ?_⟩
        · intro l
          exact ensureAuthenticated_no_submit authResult st nowMs l
        · intro st1' _ hcc'
          exact absurd hcc hcc'
      · rw [if_neg hlen, if_neg hcc, hfsome]
        refine ⟨⟨_, rfl⟩, ?_, ?_⟩
        · intro l
          exact ensureAuthenticated_no_submit authResult st nowMs l
        · intro st1' _ _
          rcases findSome?_eq_some_exists transferError transfers msg hfsome with
            ⟨t', ht', hft'⟩
          rcases transferError_mentions_reference t' msg hft' with ⟨pre, hpre⟩
          exact ⟨t', pre, ht', by rw [hpre]⟩

/-- C9 witness: the amended theorem at the concrete zero-amount transfer
with a granted login. -/
theorem C9_witness :
    (∃ msg, (initiateBulkTransfer (.ok "tok") c9State "CONTRACT" 1000 [c9Transfer]).2.2 =
        .error msg)
    ∧ (∀ l, NetCall.batchSubmit l ∉
        (initiateBulkTransfer (.ok "tok") c9State "CONTRACT" 1000 [c9Transfer]).2.1)
    ∧ (∀ st1, (ensureAuthenticated (.ok "tok") c9State 1000).1 = .ok st1 →
        "CONTRACT" ≠ "" →
        ∃ t' pre, t' ∈ [c9Transfer] ∧
          (initiateBulkTransfer (.ok "tok") c9State "CONTRACT" 1000 [c9Transfer]).2.2 =
            .error (pre ++ t'.reference)) :=
  C9_validation_blocks_submission (.ok "tok") c9State "CONTRACT" 1000 [c9Transfer]
    c9Transfer (by decide) (Or.inl (by decide))
